import Mathlib

/-
Verification of the JSON-RPC request-dispatch and error-mapping layer of the
json-rpc_rest-api repository, as a shallow embedding in Lean 4.

Embedded source files:
  src/jsonrpc_server/server.py   (class JSONRPCServer: _handle_request,
                                  _process_single_request, _call_method,
                                  _create_error_response)
  src/jsonrpc_server/methods.py  (TaxService, UserService, CalculationService,
                                  SystemService)

Modelling conventions, used throughout:
  - Python JSON values are the inductive type JSON below; Python dicts are
    association lists.  Parsed JSON objects in Python have unique keys (a
    duplicate key in the wire text keeps the last occurrence), so every
    dictionary primitive here (pyGet, pySet, hasKey) is last-occurrence
    biased: an association list with duplicate keys behaves exactly like the
    collapsed dict it denotes.
  - Python floats are modelled as exact rationals; decimal string rendering
    of numbers (only ever used inside human-readable message text that no
    dispatch decision other than the substring test below inspects) is
    approximated.
  - datetime.now().isoformat() and str(uuid.uuid4()) are external inputs,
    supplied as the fields of Env; successive calls within one dispatch are
    not distinguished.
  - Python exceptions are the Except monad with PyExc payloads carrying the
    exception text str(e); the dispatcher only ever inspects that text.
    No handler in methods.py mutates the user store before raising, so an
    exception leaves the store unchanged.
-/

/-- A parsed JSON value, as held in the Python process after request.get_json(). -/
inductive JSON where
  | null
  | bool (b : Bool)
  | num (q : ℚ)
  | str (s : String)
  | arr (xs : List JSON)
  | obj (kvs : List (String × JSON))

/-- A Python exception, tagged with enough of its class to drive the
except-clauses of server.py, carrying its str(e) text. -/
inductive PyExc where
  | typeError (msg : String)
  | valueError (msg : String)
  | exc (msg : String)

/-- Text str(e) of an exception. -/
def PyExc.msg : PyExc → String
  | .typeError m => m
  | .valueError m => m
  | .exc m => m

/-- Dictionary read d.get(k): the value at key k, last occurrence winning
(Python dicts keep the last duplicate from the wire text). -/
def pyGet : List (String × JSON) → String → Option JSON
  | [], _ => none
  | (k1, v) :: rest, k =>
    match pyGet rest k with
    | some w => some w
    | none => if k1 == k then some v else none

/-- Key-presence test, Python k in d. -/
def hasKey (kvs : List (String × JSON)) (k : String) : Bool :=
  kvs.any (fun p => p.1 == k)

/-- Dictionary write d[k] = v: replaces the value in place when the key is
present (keeping its position), appends otherwise, exactly as a Python dict. -/
def pySet (kvs : List (String × JSON)) (k : String) (v : JSON) : List (String × JSON) :=
  if hasKey kvs k then
    kvs.map (fun p => if p.1 == k then (k, v) else p)
  else kvs ++ [(k, v)]

/-- Removal of a key, used only to state what a request without that key is. -/
def removeKey (kvs : List (String × JSON)) (k : String) : List (String × JSON) :=
  kvs.filter (fun p => !(p.1 == k))

/-- Python truthiness bool(v) of a JSON value. -/
def pyTruthy : JSON → Bool
  | .null => false
  | .bool b => b
  | .num q => !(q == 0)
  | .str s => !(s == "")
  | .arr xs => !xs.isEmpty
  | .obj kvs => !kvs.isEmpty

mutual

/-- Python equality v == w on JSON values.  True and 1 compare equal (bool is
an int subclass); lists compare elementwise.  Python dict equality is
key-set based and order-insensitive; the elementwise comparison here agrees
with it on every comparison the embedded code performs (the code only ever
compares scalars: user-table keys and email fields). -/
def pyEq : JSON → JSON → Bool
  | .null, .null => true
  | .bool a, .bool b => a == b
  | .bool a, .num q => ((if a then (1 : ℚ) else 0) == q)
  | .num q, .bool b => (q == (if b then (1 : ℚ) else 0))
  | .num a, .num b => a == b
  | .str a, .str b => a == b
  | .arr a, .arr b => pyEqL a b
  | .obj a, .obj b => pyEqKV a b
  | _, _ => false

/-- Elementwise Python equality of two JSON lists. -/
def pyEqL : List JSON → List JSON → Bool
  | [], [] => true
  | x :: xs, y :: ys => pyEq x y && pyEqL xs ys
  | _, _ => false

/-- Elementwise Python equality of two JSON objects. -/
def pyEqKV : List (String × JSON) → List (String × JSON) → Bool
  | [], [] => true
  | (k1, v1) :: xs, (k2, v2) :: ys => k1 == k2 && pyEq v1 v2 && pyEqKV xs ys
  | _, _ => false

end

/-- Shape test isinstance(v, dict). -/
def isObj : JSON → Bool
  | .obj _ => true
  | _ => false

/-- Shape test isinstance(v, list). -/
def isArr : JSON → Bool
  | .arr _ => true
  | _ => false

/-- Shape test isinstance(v, str). -/
def isStr : JSON → Bool
  | .str _ => true
  | _ => false

/-- Identity test v is None. -/
def isNull : JSON → Bool
  | .null => true
  | _ => false

/-- Shape test isinstance(v, (int, float)); Python bool is an int subclass. -/
def isNumber : JSON → Bool
  | .num _ => true
  | .bool _ => true
  | _ => false

/-- String content of a value already known to be a string. -/
def asStr : JSON → String
  | .str s => s
  | _ => ""

/-- A single-quote character (written by code point to keep the file free of
quote characters outside string literals). -/
def squo : String := (Char.ofNat 39).toString

/-- Text wrapped in single quotes, as Python f-strings with quoted fields. -/
def quo (s : String) : String := squo ++ s ++ squo

/-- Informal str(v) rendering used inside exception message text.  Decimal and
container rendering are approximated; no dispatch decision depends on them
beyond the "not found" substring test, which no rendering here can produce. -/
def pyStr : JSON → String
  | .null => "None"
  | .bool b => if b then "True" else "False"
  | .num q => if q.den == 1 then toString q.num else toString q
  | .str s => s
  | .arr _ => "[...]"
  | .obj _ => "\x7b...\x7d"

/-- Numeric coercion used by arithmetic and comparison operators; a TypeError
stands for the various messages CPython raises for non-numeric operands. -/
def pyToNum : JSON → Except PyExc ℚ
  | .num q => .ok q
  | .bool b => .ok (if b then 1 else 0)
  | v => .error (.typeError ("unsupported operand type: " ++ pyStr v))

/-- Numeric view of a value when it has one (int, float or bool). -/
def asNumOpt : JSON → Option ℚ
  | .num q => some q
  | .bool b => some (if b then (1 : ℚ) else 0)
  | _ => none

/-- Comparison v < w, defined on numbers as the code only ever compares against
numeric literals. -/
def pyLt (a b : JSON) : Except PyExc Bool := do
  let x ← pyToNum a
  let y ← pyToNum b
  .ok (decide (x < y))

/-- Text test: does the haystack start with the pattern. -/
def startsWithL : List Char → List Char → Bool
  | _, [] => true
  | [], _ :: _ => false
  | c :: cs, p :: ps => c == p && startsWithL cs ps

/-- Substring search pat in s over character lists, as the Python in operator. -/
def containsSub (pat : List Char) : List Char → Bool
  | [] => pat.isEmpty
  | c :: cs => startsWithL (c :: cs) pat || containsSub pat cs

/-- Lower-cased character list of a string; models str.lower() (ASCII-faithful). -/
def lowerChars (s : String) : List Char := s.data.map Char.toLower

/-- Test performed at server.py line 156: "not found" in str(e).lower(). -/
def containsNotFound (s : String) : Bool :=
  containsSub ("not found".data) (lowerChars s)

/-- External inputs consumed by the handlers: the wall clock reading
datetime.now().isoformat() and the random identifier str(uuid.uuid4()). -/
structure Env where
  now : String
  uuid : String

/-- State of a UserService instance: the users dict and the auto-increment
counter.  Keys are the JSON values used as dict keys (always the int ids the
service allocates); values are the stored user dicts. -/
structure UserStore where
  users : List (JSON × List (String × JSON))
  next_id : Nat

/-- Key-membership test user_id in self.users (Python dict membership, so 1,
1.0 and True all hit the key 1). -/
def hasUserKey (st : UserStore) (k : JSON) : Bool :=
  st.users.any (fun p => pyEq p.1 k)

/-- Dictionary read self.users[user_id], last occurrence winning as for
pyGet (keys of a Python dict are unique, so the bias is unobservable). -/
def lookupUser (st : UserStore) (k : JSON) : Option (List (String × JSON)) :=
  lookupKey st.users k
where
  /-- Recursive lookup over the entry list. -/
  lookupKey : List (JSON × List (String × JSON)) → JSON → Option (List (String × JSON))
    | [], _ => none
    | (k1, v) :: rest, k =>
      match lookupKey rest k with
      | some w => some w
      | none => if pyEq k1 k then some v else none

/-- Value write self.users[user_id] = u for a key already present: the entry
keeps its position, only the stored dict changes. -/
def usersSet (users : List (JSON × List (String × JSON))) (k : JSON)
    (v : List (String × JSON)) : List (JSON × List (String × JSON)) :=
  users.map (fun p => if pyEq p.1 k then (p.1, v) else p)

namespace TaxService

/-- Integer with thousands separators, the visible part of a Python
f"...:,.0f" field (rounding of the fractional part approximated). -/
def fmtMoney (q : ℚ) : String :=
  let n : Int := round q
  let ds := (toString n.natAbs).data
  let grouped := ((ds.reverse.toChunks 3).intersperse [Char.ofNat 44]).flatten.reverse
  (if n < 0 then "-$" else "$") ++ String.mk grouped

/-- Percentage rendering of a Python f"...:.0%" field. -/
def fmtPct (q : ℚ) : String := toString (round (q * 100) : Int) ++ "%"

/-- Method calculate_tax(income, deductions=0, tax_rate=0.20) of methods.py. -/
def calculate_tax (env : Env) (income deductions tax_rate : JSON) :
    Except PyExc JSON := do
  let ineg ← pyLt income (.num 0)
  let dneg ← if ineg then pure true else pyLt deductions (.num 0)
  if ineg || dneg then
    .error (.valueError "Income and deductions must be non-negative")
  else do
    let i ← pyToNum income
    let d ← pyToNum deductions
    let r ← pyToNum tax_rate
    let taxable := max 0 (i - d)
    let tax := taxable * r
    .ok (.obj [("income", income), ("deductions", deductions),
      ("taxable_income", .num taxable), ("tax_rate", tax_rate),
      ("tax_amount", .num tax), ("net_income", .num (i - tax)),
      ("calculation_id", .str env.uuid), ("calculated_at", .str env.now)])

/-- Progressive tax brackets; none as the limit stands for float("inf"). -/
def brackets : List (Option ℚ × ℚ) :=
  [(some 10000, 0.10), (some 40000, 0.12), (some 85000, 0.22), (none, 0.24)]

/-- Loop body of calculate_progressive_tax: walks the brackets accumulating
total tax and the breakdown rows, with the two break conditions of the source. -/
def progLoop (income : ℚ) : List (Option ℚ × ℚ) → ℚ → ℚ → List JSON →
    (ℚ × List JSON)
  | [], _, total, bd => (total, bd)
  | (limit, rate) :: rest, prev, total, bd =>
    if income ≤ prev then (total, bd)
    else
      let top := match limit with
        | some l => min income l
        | none => income
      let taxable := top - prev
      let tax := taxable * rate
      let row : JSON := .obj [("bracket", .str (fmtMoney prev ++ " - " ++ fmtMoney top)),
        ("rate", .str (fmtPct rate)), ("taxable_income", .num taxable), ("tax", .num tax)]
      match limit with
      | some l =>
        if income ≤ l then (total + tax, bd ++ [row])
        else progLoop income rest l (total + tax) (bd ++ [row])
      | none => (total + tax, bd ++ [row])

/-- Method calculate_progressive_tax(income) of methods.py. -/
def calculate_progressive_tax (env : Env) (income : JSON) : Except PyExc JSON := do
  let i ← pyToNum income
  let (total, bd) := progLoop i brackets 0 0 []
  .ok (.obj [("income", income), ("total_tax", .num total),
    ("effective_rate", .num (if 0 < i then total / i else 0)),
    ("net_income", .num (i - total)), ("tax_breakdown", .arr bd),
    ("calculation_id", .str env.uuid), ("calculated_at", .str env.now)])

end TaxService

namespace UserService

/-- Method create_user(name, email, age=None) of methods.py. -/
def create_user (env : Env) (st : UserStore) (name email age : JSON) :
    Except PyExc (JSON × UserStore) :=
  if !(pyTruthy name) || !(pyTruthy email) then
    .error (.valueError "Name and email are required")
  else if st.users.any (fun p => pyEq ((pyGet p.2 "email").getD .null) email) then
    .error (.valueError ("User with email " ++ pyStr email ++ " already exists"))
  else
    let user_id := st.next_id
    let user : List (String × JSON) :=
      [("id", .num user_id), ("name", name), ("email", email), ("age", age),
       ("created_at", .str env.now), ("updated_at", .str env.now)]
    .ok (.obj user, ⟨st.users ++ [(.num user_id, user)], st.next_id + 1⟩)

/-- Method get_user_by_id(user_id) of methods.py. -/
def get_user_by_id (st : UserStore) (user_id : JSON) :
    Except PyExc (JSON × UserStore) :=
  if !(hasUserKey st user_id) then
    .error (.valueError ("User with ID " ++ pyStr user_id ++ " not found"))
  else
    .ok (.obj ((lookupUser st user_id).getD []), st)

/-- Update allow-list of update_user. -/
def allowedKeys : List String := ["name", "email", "age"]

/-- Loop of update_user over kwargs.items(): keys on the allow-list are written
into the user dict, every other key is skipped. -/
def applyKwargs (user : List (String × JSON)) (kwargs : List (String × JSON)) :
    List (String × JSON) :=
  kwargs.foldl (fun acc kv =>
    if allowedKeys.contains kv.1 then pySet acc kv.1 kv.2 else acc) user

/-- Method update_user(user_id, **kwargs) of methods.py. -/
def update_user (env : Env) (st : UserStore) (user_id : JSON)
    (kwargs : List (String × JSON)) : Except PyExc (JSON × UserStore) :=
  if !(hasUserKey st user_id) then
    .error (.valueError ("User with ID " ++ pyStr user_id ++ " not found"))
  else
    let user := (lookupUser st user_id).getD []
    let user1 := applyKwargs user kwargs
    let user2 := pySet user1 "updated_at" (.str env.now)
    .ok (.obj user2, ⟨usersSet st.users user_id user2, st.next_id⟩)

/-- Method delete_user(user_id) of methods.py. -/
def delete_user (st : UserStore) (user_id : JSON) :
    Except PyExc (JSON × UserStore) :=
  if !(hasUserKey st user_id) then
    .error (.valueError ("User with ID " ++ pyStr user_id ++ " not found"))
  else
    .ok (.obj [("message", .str ("User " ++ pyStr user_id ++ " deleted successfully"))],
      ⟨st.users.filter (fun p => !(pyEq p.1 user_id)), st.next_id⟩)

/-- Method list_users() of methods.py. -/
def list_users (st : UserStore) : Except PyExc (JSON × UserStore) :=
  .ok (.arr (st.users.map (fun p => .obj p.2)), st)

end UserService

namespace CalculationService

/-- Operator a + b: numbers add (bools as 0 and 1), strings and lists
concatenate, anything else is a TypeError. -/
def pyAdd (a b : JSON) : Except PyExc JSON :=
  match asNumOpt a, asNumOpt b with
  | some x, some y => .ok (.num (x + y))
  | _, _ =>
    match a, b with
    | .str x, .str y => .ok (.str (x ++ y))
    | .arr x, .arr y => .ok (.arr (x ++ y))
    | _, _ => .error (.typeError ("unsupported operand types for +: "
        ++ pyStr a ++ ", " ++ pyStr b))

/-- Method add(a, b) of methods.py. -/
def add (env : Env) (a b : JSON) : Except PyExc JSON := do
  let r ← pyAdd a b
  .ok (.obj [("operation", .str "addition"), ("operands", .arr [a, b]),
    ("result", r), ("calculation_id", .str env.uuid), ("calculated_at", .str env.now)])

/-- Method subtract(a, b) of methods.py (numeric operands; sequence cases of
the Python operators do not arise in any verified property). -/
def subtract (env : Env) (a b : JSON) : Except PyExc JSON := do
  let x ← pyToNum a
  let y ← pyToNum b
  .ok (.obj [("operation", .str "subtraction"), ("operands", .arr [a, b]),
    ("result", .num (x - y)), ("calculation_id", .str env.uuid),
    ("calculated_at", .str env.now)])

/-- Method multiply(a, b) of methods.py. -/
def multiply (env : Env) (a b : JSON) : Except PyExc JSON := do
  let x ← pyToNum a
  let y ← pyToNum b
  .ok (.obj [("operation", .str "multiplication"), ("operands", .arr [a, b]),
    ("result", .num (x * y)), ("calculation_id", .str env.uuid),
    ("calculated_at", .str env.now)])

/-- Method divide(a, b) of methods.py: the explicit b == 0 guard raises
ValueError before any division happens. -/
def divide (env : Env) (a b : JSON) : Except PyExc JSON :=
  if pyEq b (.num 0) then
    .error (.valueError "Division by zero is not allowed")
  else do
    let x ← pyToNum a
    let y ← pyToNum b
    .ok (.obj [("operation", .str "division"), ("operands", .arr [a, b]),
      ("result", .num (x / y)), ("calculation_id", .str env.uuid),
      ("calculated_at", .str env.now)])

/-- Exponentiation a ** b for integer exponents (a non-integer exponent, whose
float result has no rational model, is mapped to 0; no verified property
evaluates one). -/
def pyPow (x y : ℚ) : ℚ :=
  if y.den == 1 then
    if 0 ≤ y.num then x ^ y.num.toNat else (x ^ (-y.num).toNat)⁻¹
  else 0

/-- Method power(base, exponent) of methods.py. -/
def power (env : Env) (base exponent : JSON) : Except PyExc JSON := do
  let x ← pyToNum base
  let y ← pyToNum exponent
  .ok (.obj [("operation", .str "power"), ("operands", .arr [base, exponent]),
    ("result", .num (pyPow x y)), ("calculation_id", .str env.uuid),
    ("calculated_at", .str env.now)])

/-- Body of one iteration of batch_calculate: the try block, with its except
clause folding any failure into an error row.  A non-dict entry makes both the
try block and the except clause raise AttributeError, which escapes. -/
def batchCalcOne (env : Env) (op : JSON) : Except PyExc JSON :=
  match op with
  | .obj kvs =>
    let operation := (pyGet kvs "operation").getD .null
    let a := (pyGet kvs "a").getD .null
    let b := (pyGet kvs "b").getD .null
    let inner : Except PyExc JSON :=
      if isNull a || isNull b then
        .ok (.obj [("error", .str ("Missing operands " ++ quo "a" ++ " or " ++ quo "b")),
          ("operation", operation), ("operands", .arr [a, b])])
      else if !(isNumber a) || !(isNumber b) then
        .ok (.obj [("error", .str "Operands must be numbers"),
          ("operation", operation), ("operands", .arr [a, b])])
      else if pyEq operation (.str "add") then add env a b
      else if pyEq operation (.str "subtract") then subtract env a b
      else if pyEq operation (.str "multiply") then multiply env a b
      else if pyEq operation (.str "divide") then divide env a b
      else if pyEq operation (.str "power") then power env a b
      else
        .ok (.obj [("error", .str ("Unknown operation: " ++ pyStr operation)),
          ("operation", operation), ("operands", .arr [a, b])])
    match inner with
    | .ok r => .ok r
    | .error e => .ok (.obj [("error", .str e.msg), ("operation", operation),
        ("operands", .arr [a, b])])
  | _ => .error (.exc ("object has no attribute " ++ quo "get"))

/-- Method batch_calculate(operations) of methods.py.  Iterating a string or a
dict yields elements without a get attribute exactly as the non-dict entry
case; a non-iterable operand is a TypeError. -/
def batch_calculate (env : Env) (operations : JSON) : Except PyExc JSON :=
  match operations with
  | .arr ops => (ops.mapM (batchCalcOne env)).map .arr
  | .str s =>
    if s == "" then .ok (.arr [])
    else .error (.exc ("object has no attribute " ++ quo "get"))
  | .obj kvs =>
    if kvs.isEmpty then .ok (.arr [])
    else .error (.exc ("object has no attribute " ++ quo "get"))
  | v => .error (.typeError (pyStr v ++ " object is not iterable"))

end CalculationService

namespace SystemService

/-- Method get_server_info() of methods.py. -/
def get_server_info (env : Env) : Except PyExc JSON :=
  .ok (.obj [("server_type", .str "JSON-RPC"), ("version", .str "1.0.0"),
    ("timestamp", .str env.now), ("status", .str "running"),
    ("supported_methods", .arr ([
      "calculate_tax", "calculate_progressive_tax", "create_user",
      "get_user_by_id", "update_user", "delete_user", "list_users", "add",
      "subtract", "multiply", "divide", "power", "batch_calculate",
      "get_server_info", "ping"].map .str))])

/-- Method ping() of methods.py. -/
def ping (env : Env) : Except PyExc JSON :=
  .ok (.obj [("message", .str "pong"), ("timestamp", .str env.now)])

end SystemService

/-- Declared parameter of a Python function: its name and default, if any. -/
structure ParamSpec where
  name : String
  default : Option JSON

/-- Calling signature of a handler: its name as it appears in TypeError text,
its declared parameters after self, and whether it ends in **kwargs. -/
structure FuncSig where
  fname : String
  params : List ParamSpec
  hasKwargs : Bool

/-- Argument lists a _call_method invocation can make: func(**params),
func(*params), or func(). -/
inductive CallArgs where
  | named (kvs : List (String × JSON))
  | positional (args : List JSON)
  | noArgs

/-- Defaults for the declared parameters not covered by positional arguments;
a parameter without a default raises TypeError, as CPython argument binding
does (message text approximated; no dispatch decision reads it beyond the
"not found" substring test). -/
def bindDefaults (fname : String) : List ParamSpec → Except PyExc (List JSON)
  | [] => .ok []
  | ps :: rest =>
    match ps.default with
    | some d => (bindDefaults fname rest).map (fun vs => d :: vs)
    | none => .error (.typeError (fname ++ "() missing 1 required positional argument: "
        ++ quo ps.name))

/-- CPython binding of a positional argument list func(*args) against the
declared parameters: arguments fill parameters in order, defaults fill the
rest, surplus arguments raise TypeError. -/
def bindPos (fname : String) : List ParamSpec → List JSON → Except PyExc (List JSON)
  | ps, [] => bindDefaults fname ps
  | p :: rest, a :: as => let _ := p; (bindPos fname rest as).map (fun vs => a :: vs)
  | [], _ :: _ => .error (.typeError (fname ++ "() takes a fixed number of positional arguments but more were given"))

/-- CPython binding of a keyword dictionary func(**kvs): each declared
parameter takes its entry or its default, leftover keys feed **kwargs when the
signature has one and raise TypeError otherwise. -/
def bindNamed (sig : FuncSig) (kvs : List (String × JSON)) :
    Except PyExc (List JSON × List (String × JSON)) :=
  let leftover := kvs.filter (fun p => !(sig.params.any (fun ps => ps.name == p.1)))
  match leftover.head? with
  | some (k, _) =>
    if sig.hasKwargs then
      (bindNamedVals sig.fname sig.params kvs).map (fun vs => (vs, leftover))
    else
      .error (.typeError (sig.fname ++ "() got an unexpected keyword argument " ++ quo k))
  | none => (bindNamedVals sig.fname sig.params kvs).map (fun vs => (vs, leftover))
where
  /-- Values for the declared parameters from the keyword dictionary. -/
  bindNamedVals (fname : String) : List ParamSpec → List (String × JSON) →
      Except PyExc (List JSON)
    | [], _ => .ok []
    | ps :: rest, kvs =>
      match pyGet kvs ps.name with
      | some v => (bindNamedVals fname rest kvs).map (fun vs => v :: vs)
      | none =>
        match ps.default with
        | some d => (bindNamedVals fname rest kvs).map (fun vs => d :: vs)
        | none => .error (.typeError (fname ++ "() missing 1 required positional argument: "
            ++ quo ps.name))

/-- Binding for each of the three call shapes of _call_method.  A call with no
arguments is a positional call with zero arguments, as in CPython. -/
def bindArgs (sig : FuncSig) : CallArgs → Except PyExc (List JSON × List (String × JSON))
  | .named kvs => bindNamed sig kvs
  | .positional args => (bindPos sig.fname sig.params args).map (fun vs => (vs, []))
  | .noArgs => (bindPos sig.fname sig.params []).map (fun vs => (vs, []))

/-- Names of the method_map of _call_method. -/
inductive MethodName where
  | calculate_tax
  | calculate_progressive_tax
  | create_user
  | get_user_by_id
  | update_user
  | delete_user
  | list_users
  | add
  | subtract
  | multiply
  | divide
  | power
  | batch_calculate
  | get_server_info
  | ping

/-- Python signature of each registered handler, read off its def line in
methods.py. -/
def sigOf : MethodName → FuncSig
  | .calculate_tax => ⟨"calculate_tax",
      [⟨"income", none⟩, ⟨"deductions", some (.num 0)⟩, ⟨"tax_rate", some (.num 0.20)⟩], false⟩
  | .calculate_progressive_tax => ⟨"calculate_progressive_tax", [⟨"income", none⟩], false⟩
  | .create_user => ⟨"create_user",
      [⟨"name", none⟩, ⟨"email", none⟩, ⟨"age", some .null⟩], false⟩
  | .get_user_by_id => ⟨"get_user_by_id", [⟨"user_id", none⟩], false⟩
  | .update_user => ⟨"update_user", [⟨"user_id", none⟩], true⟩
  | .delete_user => ⟨"delete_user", [⟨"user_id", none⟩], false⟩
  | .list_users => ⟨"list_users", [], false⟩
  | .add => ⟨"add", [⟨"a", none⟩, ⟨"b", none⟩], false⟩
  | .subtract => ⟨"subtract", [⟨"a", none⟩, ⟨"b", none⟩], false⟩
  | .multiply => ⟨"multiply", [⟨"a", none⟩, ⟨"b", none⟩], false⟩
  | .divide => ⟨"divide", [⟨"a", none⟩, ⟨"b", none⟩], false⟩
  | .power => ⟨"power", [⟨"base", none⟩, ⟨"exponent", none⟩], false⟩
  | .batch_calculate => ⟨"batch_calculate", [⟨"operations", none⟩], false⟩
  | .get_server_info => ⟨"get_server_info", [], false⟩
  | .ping => ⟨"ping", [], false⟩

/-- The method_map dictionary of _call_method. -/
def methodMap : String → Option MethodName
  | "calculate_tax" => some .calculate_tax
  | "calculate_progressive_tax" => some .calculate_progressive_tax
  | "create_user" => some .create_user
  | "get_user_by_id" => some .get_user_by_id
  | "update_user" => some .update_user
  | "delete_user" => some .delete_user
  | "list_users" => some .list_users
  | "add" => some .add
  | "subtract" => some .subtract
  | "multiply" => some .multiply
  | "divide" => some .divide
  | "power" => some .power
  | "batch_calculate" => some .batch_calculate
  | "get_server_info" => some .get_server_info
  | "ping" => some .ping
  | _ => none

/-- Message used for the impossible case of runMethod: bindArgs always
delivers exactly as many values as sigOf declares parameters. -/
def arityMsg : String := "internal arity mismatch"

/-- Handler body invocation, the func(...) call of _call_method: the bound
parameter values (and, for update_user, the **kwargs leftovers) are fed to
the service method.  Stateless services pass the user store through. -/
def runMethod (env : Env) (st : UserStore) :
    MethodName → List JSON → List (String × JSON) → Except PyExc (JSON × UserStore)
  | .calculate_tax, [income, deductions, tax_rate], _ =>
    (TaxService.calculate_tax env income deductions tax_rate).map (fun j => (j, st))
  | .calculate_progressive_tax, [income], _ =>
    (TaxService.calculate_progressive_tax env income).map (fun j => (j, st))
  | .create_user, [name, email, age], _ => UserService.create_user env st name email age
  | .get_user_by_id, [user_id], _ => UserService.get_user_by_id st user_id
  | .update_user, [user_id], kw => UserService.update_user env st user_id kw
  | .delete_user, [user_id], _ => UserService.delete_user st user_id
  | .list_users, [], _ => UserService.list_users st
  | .add, [a, b], _ => (CalculationService.add env a b).map (fun j => (j, st))
  | .subtract, [a, b], _ => (CalculationService.subtract env a b).map (fun j => (j, st))
  | .multiply, [a, b], _ => (CalculationService.multiply env a b).map (fun j => (j, st))
  | .divide, [a, b], _ => (CalculationService.divide env a b).map (fun j => (j, st))
  | .power, [base, exponent], _ => (CalculationService.power env base exponent).map (fun j => (j, st))
  | .batch_calculate, [operations], _ =>
    (CalculationService.batch_calculate env operations).map (fun j => (j, st))
  | .get_server_info, [], _ => (SystemService.get_server_info env).map (fun j => (j, st))
  | .ping, [], _ => (SystemService.ping env).map (fun j => (j, st))
  | _, _, _ => .error (.exc arityMsg)

/-- Re-raise wrapper of the try block of _call_method: TypeError and
ValueError become generic exceptions with the prefixed text of server.py
lines 206-209, anything else propagates as it is. -/
def wrapCallErr (method : String) : PyExc → PyExc
  | .typeError m => .exc ("Invalid parameters for method " ++ quo method ++ ": " ++ m)
  | .valueError m => .exc ("Invalid parameter values for method " ++ quo method ++ ": " ++ m)
  | e => e

/-- Shape dispatch of _call_method lines 196-204 on the params value. -/
def toCallArgs : JSON → CallArgs
  | .obj kvs => .named kvs
  | .arr args => .positional args
  | _ => .noArgs

/-- Method _call_method(method, params) of server.py: registry lookup, then
invocation with the parameter shape dispatch, TypeError and ValueError
wrapped. -/
def callMethod (env : Env) (st : UserStore) (method : String) (params : JSON) :
    Except PyExc (JSON × UserStore) :=
  match methodMap method with
  | none => .error (.exc ("Method " ++ quo method ++ " not found"))
  | some m =>
    match bindArgs (sigOf m) (toCallArgs params) with
    | .error e => .error (wrapCallErr method e)
    | .ok (vs, kw) =>
      match runMethod env st m vs kw with
      | .ok r => .ok r
      | .error e => .error (wrapCallErr method e)

namespace JSONRPCError

/-- Error code PARSE_ERROR of the JSONRPCError enumeration. -/
def PARSE_ERROR : Int := -32700

/-- Error code INVALID_REQUEST of the JSONRPCError enumeration. -/
def INVALID_REQUEST : Int := -32600

/-- Error code METHOD_NOT_FOUND of the JSONRPCError enumeration. -/
def METHOD_NOT_FOUND : Int := -32601

/-- Error code INVALID_PARAMS of the JSONRPCError enumeration. -/
def INVALID_PARAMS : Int := -32602

/-- Error code INTERNAL_ERROR of the JSONRPCError enumeration. -/
def INTERNAL_ERROR : Int := -32603

end JSONRPCError

/-- Envelope built by _create_error_response(request_id, code, message). -/
def errEnv (request_id : JSON) (code : Int) (message : String) : JSON :=
  .obj [("jsonrpc", .str "2.0"),
    ("error", .obj [("code", .num code), ("message", .str message)]),
    ("id", request_id)]

/-- Success envelope built at server.py lines 148-152. -/
def resultEnv (result request_id : JSON) : JSON :=
  .obj [("jsonrpc", .str "2.0"), ("result", result), ("id", request_id)]

/-- Method _process_single_request(data) of server.py, with the user store
threaded explicitly.  None as the Python return value is the none response. -/
def processSingleRequest (env : Env) (st : UserStore) (data : JSON) :
    Option JSON × UserStore :=
  match data with
  | .obj kvs =>
    let jsonrpc := (pyGet kvs "jsonrpc").getD .null
    let methodV := (pyGet kvs "method").getD .null
    let params := (pyGet kvs "params").getD (.arr [])
    let request_id := (pyGet kvs "id").getD .null
    let notif := !(hasKey kvs "id")
    if !(pyEq jsonrpc (.str "2.0")) then
      (if notif then none
       else some (errEnv request_id JSONRPCError.INVALID_REQUEST "Invalid Request"), st)
    else if !(pyTruthy methodV) || !(isStr methodV) then
      (if notif then none
       else some (errEnv request_id JSONRPCError.INVALID_REQUEST "Invalid Request"), st)
    else
      match callMethod env st (asStr methodV) params with
      | .ok (result, st1) =>
        (if notif then none else some (resultEnv result request_id), st1)
      | .error e =>
        (if notif then none
         else some (errEnv request_id
           (if containsNotFound e.msg then JSONRPCError.METHOD_NOT_FOUND
            else JSONRPCError.INTERNAL_ERROR) e.msg), st)
  | _ => (some (errEnv .null JSONRPCError.INVALID_REQUEST "Invalid Request"), st)

/-- Batch loop of _handle_request lines 92-96: each item processed in order,
non-None responses collected in input order, the store threaded through. -/
def processBatch (env : Env) (st : UserStore) : List JSON → List JSON × UserStore
  | [] => ([], st)
  | item :: rest =>
    let (r, st1) := processSingleRequest env st item
    let (rs, st2) := processBatch env st1 rest
    (match r with
     | some j => j :: rs
     | none => rs, st2)

/-- Store reached before each batch entry, used only to state which response a
given entry produced. -/
def batchStatesFrom (env : Env) (st : UserStore) : List JSON → List UserStore
  | [] => []
  | item :: rest => st :: batchStatesFrom env (processSingleRequest env st item).2 rest

/-- Value a dispatch hands back to the transport: one envelope, an envelope
list, or the no-body sentinel the transport renders as HTTP 204. -/
inductive DispatchOutput where
  | single (j : JSON)
  | batch (js : List JSON)
  | noBody

/-- Method _handle_request of server.py over the already-decoded body.  The
input none is a body request.get_json() could not decode; the parsed value
null is indistinguishable from it in the Python source (both are None), so
both take the PARSE_ERROR branch of lines 81-84.  The outer try of line 77
is unreachable: every exception is already caught below it. -/
def handleRequest (env : Env) (st : UserStore) : Option JSON → DispatchOutput × UserStore
  | none => (.single (errEnv .null JSONRPCError.PARSE_ERROR "Parse error"), st)
  | some .null => (.single (errEnv .null JSONRPCError.PARSE_ERROR "Parse error"), st)
  | some (.arr items) =>
    let (rs, st1) := processBatch env st items
    ((if rs.isEmpty then .noBody else .batch rs), st1)
  | some data =>
    let (r, st1) := processSingleRequest env st data
    ((match r with
      | some j => .single j
      | none => .noBody), st1)

/-- Notification test of the spec glossary: a request envelope (a mapping)
with no identifier field.  Malformed entries are not notifications. -/
def isNotification : JSON → Bool
  | .obj kvs => !(hasKey kvs "id")
  | _ => false

/-- Well-formedness of a response envelope per the wire format of the spec:
version tag "2.0", an id field, and exactly one of result or error, an error
being an object with an integer code and a string message. -/
def wellFormedEnvelope (j : JSON) : Bool :=
  match j with
  | .obj kvs =>
    (match pyGet kvs "jsonrpc" with
     | some (.str v) => v == "2.0"
     | _ => false)
    && hasKey kvs "id"
    && (match pyGet kvs "result", pyGet kvs "error" with
        | some _, none => true
        | none, some (.obj ekvs) =>
          (match pyGet ekvs "code" with
           | some (.num q) => q.den == 1
           | _ => false)
          && (match pyGet ekvs "message" with
              | some (.str _) => true
              | _ => false)
        | _, _ => false)
  | _ => false

/-- Well-formedness of a whole dispatch output: a single well-formed envelope,
a nonempty list of well-formed envelopes, or the no-body sentinel. -/
def wellFormedOutput : DispatchOutput → Prop
  | .single j => wellFormedEnvelope j = true
  | .batch js => js ≠ [] ∧ ∀ j ∈ js, wellFormedEnvelope j = true
  | .noBody => True

/-- Invariant of a UserService state: every key of the users dict is an
integer id strictly below the next_id counter. -/
def StoreInv (st : UserStore) : Prop :=
  ∀ k ∈ st.users.map Prod.fst, ∃ n : Nat, k = .num n ∧ n < st.next_id

/-- A freed id: an integer below the allocation counter that is not (or is no
longer) a key of the users dict — the state of an id after delete_user. -/
def Freed (k : JSON) (st : UserStore) : Prop :=
  (∃ n : Nat, k = .num n ∧ n < st.next_id) ∧ hasUserKey st k = false

/-- Relation every dispatch step preserves on the user store: the allocation
counter never decreases, the store invariant is preserved, and a freed id
stays freed (hence is never reassigned). -/
def stateRel (st st2 : UserStore) : Prop :=
  st.next_id ≤ st2.next_id ∧ (StoreInv st → StoreInv st2)
  ∧ (∀ k, Freed k st → Freed k st2)

/-- Key-presence over a cons cell splits into head and tail tests. -/
theorem hasKey_cons (k1 k : String) (v : JSON) (rest : List (String × JSON)) :
    hasKey ((k1, v) :: rest) k = ((k1 == k) || hasKey rest k) := rfl

/-- Read pyGet succeeds exactly on present keys. -/
theorem pyGet_isSome (k : String) : ∀ kvs, (pyGet kvs k).isSome = hasKey kvs k := by
  intro kvs
  induction kvs with
  | nil => rfl
  | cons p rest ih =>
    rcases p with ⟨k1, v⟩
    rw [hasKey_cons]
    simp only [pyGet]
    rcases h : pyGet rest k with _ | w <;> rw [h] at ih
    · simp only [Option.isSome_none] at ih
      rw [← ih, Bool.or_false]
      by_cases hkk : (k1 == k) = true
      · simp [hkk]
      · simp at hkk
        simp [hkk]
    · simp only [Option.isSome_some] at ih
      rw [← ih, Bool.or_true]
      simp

/-- Read success implies key presence. -/
theorem pyGet_some_hasKey (kvs : List (String × JSON)) (k : String) (v : JSON)
    (h : pyGet kvs k = some v) : hasKey kvs k = true := by
  rw [← pyGet_isSome, h]
  rfl



/-- Read after appending a fresh entry: the appended key wins, others unchanged. -/
theorem pyGet_append_single (k k2 : String) (v : JSON) :
    ∀ kvs, pyGet (kvs ++ [(k, v)]) k2 = if k2 == k then some v else pyGet kvs k2 := by
  intro kvs
  induction kvs with
  | nil =>
    simp only [List.nil_append, pyGet]
    by_cases h : k2 = k
    · simp [beq_iff_eq, h]
    · have h2 : ¬(k = k2) := fun hc => h hc.symm
      simp [beq_iff_eq, h, h2]
  | cons p rest ih =>
    rcases p with ⟨k1, w⟩
    simp only [List.cons_append, pyGet, List.append_eq]
    rw [ih]
    by_cases h : k2 = k
    · simp [beq_iff_eq, h]
    · simp only [beq_iff_eq, h, if_false]

/-- Read after replacing every entry at a key: the key now holds the new value when it was present, other keys are untouched. -/
theorem pyGet_map_replace (k k2 : String) (v : JSON) :
    ∀ kvs, pyGet (kvs.map (fun p => if p.1 == k then (k, v) else p)) k2
      = if k2 == k then (if hasKey kvs k then some v else none)
        else pyGet kvs k2 := by
  intro kvs
  induction kvs with
  | nil =>
    by_cases h : k2 = k <;> simp [beq_iff_eq, h, hasKey, pyGet]
  | cons p rest ih =>
    rcases p with ⟨k1, w⟩
    simp only [List.map_cons, hasKey_cons]
    by_cases hb : (k1 == k) = true
    · rw [if_pos hb]
      simp only [pyGet]
      rw [ih]
      have h1 : k1 = k := by simpa [beq_iff_eq] using hb
      by_cases h : k2 = k
      · subst h
        simp only [beq_iff_eq, if_pos rfl, hb, Bool.true_or]
        cases hr : hasKey rest k2 with
        | true => simp
        | false => simp [beq_iff_eq]
      · have h3 : ¬(k = k2) := fun hc => h hc.symm
        simp only [beq_iff_eq, h, if_false]
        rcases ho : pyGet rest k2 with _ | x
        · have h4 : ¬(k1 = k2) := h1 ▸ h3
          simp [beq_iff_eq, h3, h4]
        · simp
    · rw [if_neg hb]
      simp only [pyGet]
      rw [ih]
      have h1 : ¬(k1 = k) := by simpa [beq_iff_eq] using hb
      by_cases h : k2 = k
      · subst h
        have h4 : ¬(k1 = k2) := h1
        simp only [beq_iff_eq, if_pos rfl, hb, Bool.false_or]
        cases hr : hasKey rest k2 with
        | true => simp
        | false => simp [beq_iff_eq, h4]
      · simp only [beq_iff_eq, h, if_false]

/-- Read after the dictionary write pySet: the written key holds the new value, every other key is unchanged. -/
theorem pyGet_pySet (kvs : List (String × JSON)) (k k2 : String) (v : JSON) :
    pyGet (pySet kvs k v) k2 = if k2 == k then some v else pyGet kvs k2 := by
  unfold pySet
  cases h : hasKey kvs k with
  | false =>
    simp only [Bool.false_eq_true, if_false]
    exact pyGet_append_single k k2 v kvs
  | true =>
    simp only [if_true]
    rw [pyGet_map_replace, h]
    simp

/-- Field content after the update_user kwargs loop: an allow-listed key present in kwargs takes its kwargs value (last occurrence), every other field keeps its stored value. -/
theorem pyGet_applyKwargs :
    ∀ (kw : List (String × JSON)), ∀ (u : List (String × JSON)) (f : String),
      pyGet (UserService.applyKwargs u kw) f
        = if UserService.allowedKeys.contains f && hasKey kw f then pyGet kw f
          else pyGet u f := by
  intro kw
  induction kw with
  | nil =>
    intro u f
    simp [UserService.applyKwargs, hasKey]
  | cons kv rest ih =>
    intro u f
    rcases kv with ⟨k0, v0⟩
    have hstep : UserService.applyKwargs u ((k0, v0) :: rest)
        = UserService.applyKwargs
            (if UserService.allowedKeys.contains k0 then pySet u k0 v0 else u) rest := rfl
    rw [hstep, ih, hasKey_cons]
    by_cases hcf : UserService.allowedKeys.contains f = true
    · by_cases hkf : hasKey rest f = true
      · simp only [hcf, hkf, Bool.true_and, Bool.or_true, if_true]
        have hx : ∃ x, pyGet rest f = some x := by
          have hiso := pyGet_isSome f rest
          rw [hkf] at hiso
          rcases ho : pyGet rest f with _ | x
          · rw [ho] at hiso; cases hiso
          · exact ⟨x, rfl⟩
        rcases hx with ⟨x, hx⟩
        simp [pyGet, hx]
      · have hkf' : hasKey rest f = false := by
          cases hq : hasKey rest f
          · rfl
          · exact absurd hq hkf
        have hnone : pyGet rest f = none := by
          have hiso := pyGet_isSome f rest
          rw [hkf'] at hiso
          rcases ho : pyGet rest f with _ | x
          · rfl
          · rw [ho] at hiso; cases hiso
        by_cases hk0 : (k0 == f) = true
        · have hk0e : k0 = f := by simpa [beq_iff_eq] using hk0
          have hcf0 : UserService.allowedKeys.contains k0 = true := by rw [hk0e]; exact hcf
          simp only [hcf, hkf', hk0, Bool.true_and, Bool.and_false, Bool.or_false,
            Bool.false_eq_true, if_false, if_true, hcf0]
          rw [pyGet_pySet]
          have hfk : (f == k0) = true := by simp [beq_iff_eq, hk0e]
          simp [hfk, pyGet, hnone, hk0]
        · have hk0' : (k0 == f) = false := by
            cases hq : (k0 == f)
            · rfl
            · exact absurd hq hk0
          simp only [hcf, hkf', hk0', Bool.true_and, Bool.and_false, Bool.or_false,
            Bool.false_eq_true, if_false]
          split
          · rw [pyGet_pySet]
            have hfk : (f == k0) = false := by
              simp only [beq_eq_false_iff_ne] at hk0' ⊢
              exact fun hc => hk0' hc.symm
            simp [hfk]
          · rfl
    · have hcf' : UserService.allowedKeys.contains f = false := by
        cases hq : UserService.allowedKeys.contains f
        · rfl
        · exact absurd hq hcf
      simp only [hcf', Bool.false_and, Bool.false_eq_true, if_false]
      split
      · next hck0 =>
        rw [pyGet_pySet]
        have hfk : (f == k0) = false := by
          simp only [beq_eq_false_iff_ne]
          intro hc
          rw [hc] at hcf'
          rw [hck0] at hcf'
          cases hcf'
        simp [hfk]
      · rfl

/-- User-table lookup succeeds exactly on present keys. -/
theorem lookupKey_isSome (k : JSON) : ∀ users,
    (lookupUser.lookupKey users k).isSome = users.any (fun p => pyEq p.1 k) := by
  intro users
  induction users with
  | nil => rfl
  | cons p rest ih =>
    rcases p with ⟨k1, v⟩
    simp only [lookupUser.lookupKey, List.any_cons]
    rcases h : lookupUser.lookupKey rest k with _ | w <;> rw [h] at ih
    · simp only [Option.isSome_none] at ih
      rw [← ih, Bool.or_false]
      by_cases hkk : pyEq k1 k = true
      · simp [hkk]
      · simp at hkk
        simp [hkk]
    · simp only [Option.isSome_some] at ih
      rw [← ih, Bool.or_true]
      simp

/-- User-table lookup success implies membership. -/
theorem lookupUser_some_hasUserKey (st : UserStore) (k : JSON)
    (u : List (String × JSON)) (h : lookupUser st k = some u) :
    hasUserKey st k = true := by
  have h2 := lookupKey_isSome k st.users
  unfold lookupUser at h
  rw [h] at h2
  simp only [Option.isSome_some] at h2
  unfold hasUserKey
  rw [← h2]

/-- Value-only write usersSet keeps the key list (and its order) unchanged. -/
theorem usersSet_keys (users : List (JSON × List (String × JSON))) (k : JSON)
    (v : List (String × JSON)) :
    (usersSet users k v).map Prod.fst = users.map Prod.fst := by
  induction users with
  | nil => rfl
  | cons p rest ih =>
    simp only [usersSet, List.map_cons] at *
    rw [ih]
    congr 1
    split <;> rfl

/-- CLAIM C10. For every existing user, update_user succeeds (extra keyword keys are ignored, never rejected), stores the user back under the same key with the store counter unchanged, and the resulting user dict holds: updated_at refreshed to the clock reading, each allow-listed key (name, email, age) present in kwargs overwritten with its kwargs value, and every other field — in particular id and created_at — exactly as stored before. -/
theorem update_user_frame (env : Env) (st : UserStore) (uid : JSON)
    (kwargs : List (String × JSON)) (u : List (String × JSON))
    (hu : lookupUser st uid = some u) :
    ∃ u2, UserService.update_user env st uid kwargs
        = .ok (.obj u2, ⟨usersSet st.users uid u2, st.next_id⟩)
      ∧ (∀ f, pyGet u2 f =
          if f = "updated_at" then some (.str env.now)
          else if UserService.allowedKeys.contains f && hasKey kwargs f then pyGet kwargs f
          else pyGet u f)
      ∧ (usersSet st.users uid u2).map Prod.fst = st.users.map Prod.fst := by
  have hk : hasUserKey st uid = true := lookupUser_some_hasUserKey st uid u hu
  refine ⟨pySet (UserService.applyKwargs u kwargs) "updated_at" (.str env.now), ?_, ?_, ?_⟩
  · simp only [UserService.update_user, hk, Bool.not_true, Bool.false_eq_true, if_false, hu,
      Option.getD_some]
  · intro f
    rw [pyGet_pySet, pyGet_applyKwargs]
    by_cases hf : f = "updated_at"
    · simp [beq_iff_eq, hf]
    · simp [beq_iff_eq, hf]
  · exact usersSet_keys st.users uid _

/-- Reflexivity of the store step relation. -/
theorem stateRel_refl (st : UserStore) : stateRel st st :=
  ⟨le_refl _, fun h => h, fun _ h => h⟩

/-- Transitivity of the store step relation. -/
theorem stateRel_trans {a b c : UserStore} (h1 : stateRel a b) (h2 : stateRel b c) :
    stateRel a c :=
  ⟨h1.1.trans h2.1, fun h => h2.2.1 (h1.2.1 h), fun k h => h2.2.2 k (h1.2.2 k h)⟩

/-- Membership in the users dict depends only on its key list. -/
theorem hasUserKey_keys (st : UserStore) (k : JSON) :
    hasUserKey st k = (st.users.map Prod.fst).any (fun x => pyEq x k) := by
  unfold hasUserKey
  induction st.users with
  | nil => rfl
  | cons p rest ih => simp only [List.any_cons, List.map_cons, ih]

/-- Python equality of two numbers is rational equality. -/
theorem pyEq_num_num (a b : ℚ) : pyEq (.num a) (.num b) = (a == b) := rfl

/-- Distinct rationals are not Python-equal. -/
theorem pyEq_num_ne (a b : ℚ) (h : a ≠ b) : pyEq (.num a) (.num b) = false := by
  rw [pyEq_num_num]
  exact beq_eq_false_iff_ne.mpr h

/-- Method create_user preserves the store relation: it can only append the entry keyed by the current counter and bump the counter. -/
theorem create_user_rel (env : Env) (st : UserStore) (n e a j : JSON) (st2 : UserStore)
    (h : UserService.create_user env st n e a = .ok (j, st2)) : stateRel st st2 := by
  unfold UserService.create_user at h
  split at h
  · simp at h
  · split at h
    · simp at h
    · simp only [Except.ok.injEq, Prod.mk.injEq] at h
      obtain ⟨-, hst⟩ := h
      subst hst
      refine ⟨Nat.le_succ _, ?_, ?_⟩
      · intro hInv k hk
        simp only [List.map_append, List.map_cons, List.map_nil, List.mem_append,
          List.mem_singleton] at hk
        rcases hk with hk | hk
        · obtain ⟨m, hm, hlt⟩ := hInv k hk
          exact ⟨m, hm, Nat.lt_succ_of_lt hlt⟩
        · exact ⟨st.next_id, hk, Nat.lt_succ_self _⟩
      · rintro k ⟨⟨m, hm, hlt⟩, hnk⟩
        refine ⟨⟨m, hm, Nat.lt_succ_of_lt hlt⟩, ?_⟩
        unfold hasUserKey at hnk ⊢
        simp only [List.any_append, List.any_cons, List.any_nil, Bool.or_false]
        rw [hnk, Bool.false_or]
        subst hm
        refine pyEq_num_ne _ _ ?_
        have hne : st.next_id ≠ m := by omega
        exact_mod_cast hne

/-- Method update_user preserves the store relation: keys and counter are untouched. -/
theorem update_user_rel (env : Env) (st : UserStore) (uid j : JSON)
    (kw : List (String × JSON)) (st2 : UserStore)
    (h : UserService.update_user env st uid kw = .ok (j, st2)) : stateRel st st2 := by
  unfold UserService.update_user at h
  split at h
  · simp at h
  · simp only [Except.ok.injEq, Prod.mk.injEq] at h
    obtain ⟨-, hst⟩ := h
    subst hst
    refine ⟨le_refl _, ?_, ?_⟩
    · intro hInv k hk
      simp only [usersSet_keys] at hk
      exact hInv k hk
    · rintro k ⟨hnum, hnk⟩
      refine ⟨hnum, ?_⟩
      rw [hasUserKey_keys] at hnk ⊢
      simp only [usersSet_keys]
      exact hnk

/-- Method delete_user preserves the store relation: it only removes an entry, leaving the counter in place. -/
theorem delete_user_rel (st : UserStore) (uid j : JSON) (st2 : UserStore)
    (h : UserService.delete_user st uid = .ok (j, st2)) : stateRel st st2 := by
  unfold UserService.delete_user at h
  split at h
  · simp at h
  · simp only [Except.ok.injEq, Prod.mk.injEq] at h
    obtain ⟨-, hst⟩ := h
    subst hst
    refine ⟨le_refl _, ?_, ?_⟩
    · intro hInv k hk
      rw [List.mem_map] at hk
      obtain ⟨p, hpf, hpk⟩ := hk
      exact hInv k (List.mem_map.mpr ⟨p, List.mem_of_mem_filter hpf, hpk⟩)
    · rintro k ⟨hnum, hnk⟩
      refine ⟨hnum, ?_⟩
      unfold hasUserKey at hnk ⊢
      rw [List.any_eq_false] at hnk ⊢
      intro x hx
      exact hnk x (List.mem_of_mem_filter hx)

/-- A stateless handler wrapped by runMethod passes the store through unchanged. -/
theorem map_pair_state {r : Except PyExc JSON} {st : UserStore} {j : JSON} {st2 : UserStore}
    (h : r.map (fun j => (j, st)) = .ok (j, st2)) : st2 = st := by
  cases r with
  | error e => simp [Except.map] at h
  | ok v =>
    simp only [Except.map, Except.ok.injEq, Prod.mk.injEq] at h
    exact h.2.symm

/-- Every handler invocation that returns preserves the store relation. -/
theorem runMethod_rel (env : Env) (st : UserStore) (m : MethodName) (vs : List JSON)
    (kw : List (String × JSON)) (j : JSON) (st2 : UserStore)
    (h : runMethod env st m vs kw = .ok (j, st2)) : stateRel st st2 := by
  unfold runMethod at h
  split at h
  case _ => rw [map_pair_state h]; exact stateRel_refl st
  case _ => rw [map_pair_state h]; exact stateRel_refl st
  case _ => exact create_user_rel _ _ _ _ _ _ _ h
  case _ =>
    unfold UserService.get_user_by_id at h
    split at h
    · simp at h
    · simp only [Except.ok.injEq, Prod.mk.injEq] at h
      rw [← h.2]
      exact stateRel_refl st
  case _ => exact update_user_rel _ _ _ _ _ _ h
  case _ => exact delete_user_rel _ _ _ _ h
  case _ =>
    unfold UserService.list_users at h
    simp only [Except.ok.injEq, Prod.mk.injEq] at h
    rw [← h.2]
    exact stateRel_refl st
  case _ => rw [map_pair_state h]; exact stateRel_refl st
  case _ => rw [map_pair_state h]; exact stateRel_refl st
  case _ => rw [map_pair_state h]; exact stateRel_refl st
  case _ => rw [map_pair_state h]; exact stateRel_refl st
  case _ => rw [map_pair_state h]; exact stateRel_refl st
  case _ => rw [map_pair_state h]; exact stateRel_refl st
  case _ => rw [map_pair_state h]; exact stateRel_refl st
  case _ => rw [map_pair_state h]; exact stateRel_refl st
  case _ => simp at h

/-- Method _call_method preserves the store relation on success. -/
theorem callMethod_rel (env : Env) (st : UserStore) (method : String) (params : JSON)
    (j : JSON) (st2 : UserStore)
    (h : callMethod env st method params = .ok (j, st2)) : stateRel st st2 := by
  unfold callMethod at h
  split at h
  · simp at h
  · split at h
    · simp at h
    · split at h
      · simp only [Except.ok.injEq] at h
        next heq =>
          rw [h] at heq
          exact runMethod_rel _ _ _ _ _ _ _ heq
      · simp at h

/-- Processing one request preserves the store relation (validation failures and handler exceptions leave the store unchanged). -/
theorem processSingle_rel (env : Env) (st : UserStore) (d : JSON) :
    stateRel st (processSingleRequest env st d).2 := by
  cases d <;> simp only [processSingleRequest] <;> try exact stateRel_refl st
  case obj kvs =>
    split
    · exact stateRel_refl st
    · split
      · exact stateRel_refl st
      · split
        · next result st1 heq =>
          exact callMethod_rel _ _ _ _ _ _ heq
        · exact stateRel_refl st

/-- Processing a batch preserves the store relation, by chaining the per-entry steps. -/
theorem processBatch_rel (env : Env) : ∀ (items : List JSON) (st : UserStore),
    stateRel st (processBatch env st items).2 := by
  intro items
  induction items with
  | nil => intro st; exact stateRel_refl st
  | cons item rest ih =>
    intro st
    simp only [processBatch]
    rcases hp : processSingleRequest env st item with ⟨r, st1⟩
    have h1 : stateRel st st1 := by
      have := processSingle_rel env st item
      rw [hp] at this
      exact this
    rcases hb : processBatch env st1 rest with ⟨rs, st2⟩
    have h2 : stateRel st1 st2 := by
      have := ih st1
      rw [hb] at this
      exact this
    simp only [hp, hb]
    exact stateRel_trans h1 h2

/-- A mapping without an id key never yields a response, whatever else it contains. -/
theorem processSingle_notif2 (env : Env) (st : UserStore) (kvs : List (String × JSON))
    (h : hasKey kvs "id" = false) :
    (processSingleRequest env st (.obj kvs)).1 = none := by
  simp only [processSingleRequest, h]
  split
  · simp
  · split
    · simp
    · split <;> simp

/-- A mapping with an id key always yields a response. -/
theorem processSingle_call2 (env : Env) (st : UserStore) (kvs : List (String × JSON))
    (h : hasKey kvs "id" = true) :
    ∃ r, (processSingleRequest env st (.obj kvs)).1 = some r := by
  simp only [processSingleRequest, h]
  split
  · simp
  · split
    · simp
    · split <;> simp

/-- A request yields no response exactly when it is a notification: a mapping with no id key. -/
theorem processSingle_none_iff (env : Env) (st : UserStore) (d : JSON) :
    (processSingleRequest env st d).1 = none ↔ isNotification d = true := by
  cases d
  case obj kvs =>
    cases h : hasKey kvs "id"
    · constructor
      · intro _; simp [isNotification, h]
      · intro _; exact processSingle_notif2 env st kvs h
    · constructor
      · intro hn
        obtain ⟨r, hr⟩ := processSingle_call2 env st kvs h
        rw [hr] at hn; cases hn
      · intro hx; simp [isNotification, h] at hx
  all_goals
    constructor
  all_goals intro hx
  all_goals simp [processSingleRequest, isNotification] at hx

/-- Every response _process_single_request returns is one of the two envelope constructors. -/
theorem processSingle_shape (env : Env) (st : UserStore) (d : JSON) :
    (processSingleRequest env st d).1 = none
    ∨ (∃ rid code msg, (processSingleRequest env st d).1 = some (errEnv rid code msg))
    ∨ (∃ res rid, (processSingleRequest env st d).1 = some (resultEnv res rid)) := by
  cases d
  case obj kvs =>
    simp only [processSingleRequest]
    split
    · split
      · left; rfl
      · right; left; exact ⟨_, _, _, rfl⟩
    · split
      · split
        · left; rfl
        · right; left; exact ⟨_, _, _, rfl⟩
      · split
        · split
          · left; rfl
          · right; right; exact ⟨_, _, rfl⟩
        · split
          · left; rfl
          · right; left; exact ⟨_, _, _, rfl⟩
  all_goals right; left; exact ⟨_, _, _, rfl⟩

/-- Envelopes built by _create_error_response are well formed for every id, code and message. -/
theorem wf_errEnv (rid : JSON) (code : Int) (msg : String) :
    wellFormedEnvelope (errEnv rid code msg) = true := by
  show (((code : ℚ).den == 1) && true) = true
  simp [Rat.den_intCast]

/-- Success envelopes are well formed for every result and id. -/
theorem wf_resultEnv (result rid : JSON) :
    wellFormedEnvelope (resultEnv result rid) = true := rfl

/-- Every response returned for a single request is a well-formed envelope. -/
theorem processSingle_some_wf (env : Env) (st : UserStore) (d : JSON) (r : JSON)
    (h : (processSingleRequest env st d).1 = some r) :
    wellFormedEnvelope r = true := by
  rcases processSingle_shape env st d with h0 | ⟨rid, code, msg, h0⟩ | ⟨res, rid, h0⟩
  · rw [h0] at h; cases h
  · rw [h0] at h
    injection h with h
    rw [← h]
    exact wf_errEnv rid code msg
  · rw [h0] at h
    injection h with h
    rw [← h]
    exact wf_resultEnv res rid

/-- Every envelope in a batch response list is well formed. -/
theorem processBatch_mem_wf (env : Env) : ∀ (items : List JSON) (st : UserStore)
    (j : JSON), j ∈ (processBatch env st items).1 → wellFormedEnvelope j = true := by
  intro items
  induction items with
  | nil => intro st j hj; simp [processBatch] at hj
  | cons item rest ih =>
    intro st j hj
    simp only [processBatch] at hj
    rcases hp : processSingleRequest env st item with ⟨r, st1⟩
    rw [hp] at hj
    rcases hb : processBatch env st1 rest with ⟨rs, st2⟩
    rw [hb] at hj
    simp only [] at hj
    rcases r with _ | j0
    · exact ih st1 j (by rw [hb]; exact hj)
    · simp only [List.mem_cons] at hj
      rcases hj with hj | hj
      · subst hj
        exact processSingle_some_wf env st item j (by rw [hp])
      · exact ih st1 j (by rw [hb]; exact hj)

/-- The batch response list is the in-order filter of the per-entry responses, each computed at the store state reached before its entry. -/
theorem processBatch_zip (env : Env) : ∀ (items : List JSON) (st : UserStore),
    (processBatch env st items).1
      = (items.zip (batchStatesFrom env st items)).filterMap
          (fun p => (processSingleRequest env p.2 p.1).1) := by
  intro items
  induction items with
  | nil => intro st; rfl
  | cons item rest ih =>
    intro st
    simp only [processBatch, batchStatesFrom]
    rcases hp : processSingleRequest env st item with ⟨r, st1⟩
    simp only [hp, List.zip_cons_cons, List.filterMap_cons]
    rcases r with _ | j <;> simp [ih st1, hp]

/-- The batch response list has one element per non-notification entry. -/
theorem processBatch_length (env : Env) : ∀ (items : List JSON) (st : UserStore),
    (processBatch env st items).1.length
      = items.countP (fun d => !(isNotification d)) := by
  intro items
  induction items with
  | nil => intro st; rfl
  | cons item rest ih =>
    intro st
    simp only [processBatch]
    rcases hp : processSingleRequest env st item with ⟨r, st1⟩
    simp only [hp, List.countP_cons]
    rcases hr : r with _ | j
    · have hnotif : isNotification item = true := by
        rw [← processSingle_none_iff env st item, hp, hr]
      simp [ih st1, hnotif]
    · have hnotif : isNotification item = false := by
        cases hq : isNotification item
        · rfl
        · rw [← processSingle_none_iff env st item, hp] at hq
          simp only [hr] at hq
          cases hq
      simp [ih st1, hnotif]

/-- CLAIM C1. For every raw input handed to dispatch — a decode failure, a mapping, an array, or any other JSON value — the dispatcher returns a well-formed output: a single well-formed response envelope, a nonempty list of well-formed envelopes, or the no-body sentinel. The dispatcher is a total function, so no exception from validation or handler invocation ever reaches the transport. -/
theorem dispatch_output_wellformed (env : Env) (st : UserStore) (input : Option JSON) :
    wellFormedOutput (handleRequest env st input).1 := by
  rcases input with _ | d
  · exact wf_errEnv _ _ _
  cases d
  case null => exact wf_errEnv _ _ _
  case arr items =>
    simp only [handleRequest]
    rcases hb : processBatch env st items with ⟨rs, st2⟩
    simp only []
    cases he : rs.isEmpty
    · simp only [Bool.false_eq_true, if_false]
      constructor
      · intro hc
        subst hc
        simp at he
      · intro j hj
        exact processBatch_mem_wf env items st j (by rw [hb]; exact hj)
    · simp only [if_true]
      exact trivial
  all_goals (
    simp only [handleRequest]
    rcases hp : processSingleRequest env st _ with ⟨r, st1⟩
    simp only [hp]
    rcases r with _ | j
    · exact trivial
    · exact processSingle_some_wf env st _ j (by rw [hp]))

/-- CLAIM C4. For every batch, the response list consists of exactly the responses of the entries, in entry order, with notification entries (and only those) contributing nothing; its length is the number of non-notification entries; and the transport receives the no-body sentinel exactly when that list is empty (all entries notifications, or the batch empty), never an empty list. -/
theorem batch_order_and_count (env : Env) (st : UserStore) (items : List JSON) :
    ((processBatch env st items).1
      = (items.zip (batchStatesFrom env st items)).filterMap
          (fun p => (processSingleRequest env p.2 p.1).1))
    ∧ (processBatch env st items).1.length
        = items.countP (fun d => !(isNotification d))
    ∧ (handleRequest env st (some (.arr items))).1
        = (if (processBatch env st items).1.isEmpty then DispatchOutput.noBody
           else DispatchOutput.batch (processBatch env st items).1) := by
  refine ⟨processBatch_zip env items st, processBatch_length env items st, ?_⟩
  simp only [handleRequest]

/-- CLAIM C2. For every request mapping without an id key — submitted alone or as a batch entry (the single-request form is stated here; the batch form follows from the entry-wise batch lemmas) — dispatch produces no response envelope, whether envelope validation fails, the method fails, or the call succeeds; a lone such request yields the no-body sentinel. -/
theorem notification_no_response (env : Env) (st : UserStore)
    (kvs : List (String × JSON)) (h : hasKey kvs "id" = false) :
    (processSingleRequest env st (.obj kvs)).1 = none
    ∧ (handleRequest env st (some (.obj kvs))).1 = DispatchOutput.noBody := by
  have h1 := processSingle_notif2 env st kvs h
  refine ⟨h1, ?_⟩
  simp only [handleRequest]
  rcases hp : processSingleRequest env st (.obj kvs) with ⟨r, st1⟩
  rw [hp] at h1
  simp only [] at h1
  subst h1
  simp [hp]

/-- CLAIM C3. For every single request that is a mapping with jsonrpc "2.0", a string method name and an id key present (any value, null included), dispatch returns exactly one response envelope whose id field is the request id value itself, unchanged in value and type, on success and on error alike. -/
theorem call_id_echoed (env : Env) (st : UserStore) (kvs : List (String × JSON))
    (idv : JSON)
    (hj : pyGet kvs "jsonrpc" = some (.str "2.0"))
    (hm : ∃ m, pyGet kvs "method" = some (.str m))
    (hid : pyGet kvs "id" = some idv) :
    ∃ rkvs, (processSingleRequest env st (.obj kvs)).1 = some (.obj rkvs)
      ∧ pyGet rkvs "id" = some idv := by
  obtain ⟨m, hm⟩ := hm
  have hk : hasKey kvs "id" = true := pyGet_some_hasKey kvs "id" idv hid
  simp only [processSingleRequest, hj, hm, hid, hk, Option.getD_some]
  rw [show pyEq (JSON.str "2.0") (JSON.str "2.0") = true from rfl]
  simp only [Bool.not_true, Bool.false_eq_true, if_false]
  by_cases hm0 : m = ""
  · subst hm0
    simp only [pyTruthy, isStr, Bool.not_true, Bool.not_false]
    exact ⟨_, rfl, rfl⟩
  · have hne : (m == "") = false := beq_eq_false_iff_ne.mpr hm0
    simp only [pyTruthy, isStr, hne, Bool.not_false, Bool.not_true, Bool.or_false,
      Bool.false_eq_true, if_false]
    split
    · next result st1 heq => exact ⟨_, rfl, rfl⟩
    · exact ⟨_, rfl, rfl⟩

/-- CLAIM C7, amended. Every value processed as a request that is not a mapping — a batch entry of any non-mapping shape (null and nested arrays included), or a lone non-mapping that is neither an array (a batch) nor null — yields an INVALID_REQUEST (-32600) envelope with null id; it is never dropped as a notification. The amendment excludes the top-level null body: request.get_json() returns None for it, so it takes the parse-error branch of server.py line 81 and is answered with PARSE_ERROR (-32700) instead (see the counterexample). -/
theorem non_mapping_invalid_request (env : Env) (st : UserStore) (j : JSON)
    (h : isObj j = false) :
    (processSingleRequest env st j
        = (some (errEnv .null JSONRPCError.INVALID_REQUEST "Invalid Request"), st))
    ∧ (isArr j = false → j ≠ .null →
        (handleRequest env st (some j)).1
          = .single (errEnv .null JSONRPCError.INVALID_REQUEST "Invalid Request")) := by
  cases j
  case obj kvs => simp [isObj] at h
  case null => exact ⟨rfl, fun _ hn => absurd rfl hn⟩
  case arr xs => exact ⟨rfl, fun ha _ => by simp [isArr] at ha⟩
  all_goals exact ⟨rfl, fun _ _ => rfl⟩

/-- Read after removing a key: the removed key is gone, others unchanged. -/
theorem pyGet_removeKey (kvs : List (String × JSON)) (k k2 : String) :
    pyGet (removeKey kvs k) k2 = if k2 == k then none else pyGet kvs k2 := by
  induction kvs with
  | nil => by_cases h : k2 = k <;> simp [removeKey, pyGet, beq_iff_eq, h]
  | cons p rest ih =>
    rcases p with ⟨k1, v⟩
    simp only [removeKey, List.filter_cons] at ih ⊢
    by_cases h1 : (k1 == k) = true
    · simp only [h1, Bool.not_true, Bool.false_eq_true, if_false]
      rw [ih]
      by_cases h : k2 = k
      · simp [beq_iff_eq, h]
      · simp only [beq_iff_eq, h, if_false, pyGet]
        have h4 : ¬(k1 = k2) := by
          have h1e : k1 = k := by simpa [beq_iff_eq] using h1
          intro hc
          exact h (hc ▸ h1e ▸ rfl)
        rcases ho : pyGet rest k2 with _ | x
        · simp [h4]
        · simp
    · have h1f : (k1 == k) = false := by
        cases hq : (k1 == k)
        · rfl
        · exact absurd hq h1
      simp only [h1f, Bool.not_false, if_true, pyGet]
      rw [ih]
      by_cases h : k2 = k
      · have h4 : ¬(k1 = k) := beq_eq_false_iff_ne.mp h1f
        simp [beq_iff_eq, h, h4]
      · simp [beq_iff_eq, h]

/-- Key presence after removing a key. -/
theorem hasKey_removeKey (kvs : List (String × JSON)) (k k2 : String) :
    hasKey (removeKey kvs k) k2 = if k2 == k then false else hasKey kvs k2 := by
  rw [← pyGet_isSome, ← pyGet_isSome, pyGet_removeKey]
  by_cases h : k2 = k <;> simp [beq_iff_eq, h]

/-- Method invocation with a scalar params value coincides with invocation with the default empty positional list: both call the handler with no arguments. -/
theorem callMethod_scalar (env : Env) (st : UserStore) (method : String) (pv : JSON)
    (h1 : isObj pv = false) (h2 : isArr pv = false) :
    callMethod env st method pv = callMethod env st method (.arr []) := by
  cases pv
  case obj kvs => simp [isObj] at h1
  case arr xs => simp [isArr] at h2
  all_goals rfl

/-- CLAIM C8. For every request whose params value is neither a mapping nor a list (a string, number, boolean or null), dispatch behaves exactly — same response, same store — as on the identical request with the params key removed: the resolved method is invoked with no arguments at all. -/
theorem scalar_params_as_absent (env : Env) (st : UserStore)
    (kvs : List (String × JSON)) (pv : JSON)
    (hp : pyGet kvs "params" = some pv)
    (h1 : isObj pv = false) (h2 : isArr pv = false) :
    processSingleRequest env st (.obj kvs)
      = processSingleRequest env st (.obj (removeKey kvs "params")) := by
  simp only [processSingleRequest]
  rw [pyGet_removeKey kvs "params" "jsonrpc", pyGet_removeKey kvs "params" "method",
    pyGet_removeKey kvs "params" "params", pyGet_removeKey kvs "params" "id",
    hasKey_removeKey kvs "params" "id"]
  simp only [show (("jsonrpc" == "params") = false) from rfl,
    show (("method" == "params") = false) from rfl,
    show (("id" == "params") = false) from rfl,
    show (("params" == "params") = true) from rfl,
    Bool.false_eq_true, if_false, if_true]
  rw [hp]
  simp only [Option.getD_some, Option.getD_none]
  rw [callMethod_scalar env st _ pv h1 h2]

/-- A character list is a prefix of itself followed by anything. -/
theorem startsWithL_self (pat : List Char) : ∀ rest, startsWithL (pat ++ rest) pat = true := by
  induction pat with
  | nil => intro rest; cases rest <;> rfl
  | cons p ps ih =>
    intro rest
    show ((p == p) && startsWithL (ps ++ rest) ps) = true
    rw [ih rest]
    simp

/-- The substring search finds the pattern at the front. -/
theorem containsSub_here (pat rest : List Char) : containsSub pat (pat ++ rest) = true := by
  cases pat with
  | nil => cases rest <;> simp [containsSub, List.isEmpty, startsWithL]
  | cons p ps =>
    show (startsWithL ((p :: ps) ++ rest) (p :: ps) || containsSub (p :: ps) (ps ++ rest)) = true
    rw [startsWithL_self]
    simp

/-- The substring search still succeeds after text is prepended. -/
theorem containsSub_append (pat : List Char) :
    ∀ xs ys, containsSub pat ys = true → containsSub pat (xs ++ ys) = true := by
  intro xs
  induction xs with
  | nil => intro ys h; simpa using h
  | cons x rest ih =>
    intro ys h
    show (startsWithL (x :: (rest ++ ys)) pat || containsSub pat (rest ++ ys)) = true
    rw [ih ys h]
    simp

/-- Any text ending in " not found" passes the error-code sniffing test of server.py line 156. -/
theorem containsNotFound_suffix (s : String) :
    containsNotFound (s ++ " not found") = true := by
  unfold containsNotFound lowerChars
  rw [String.data_append, List.map_append]
  apply containsSub_append
  decide

/-- Error-mapping of a failed invocation: a valid call whose _call_method invocation raises is answered by an error envelope carrying the exception text, coded METHOD_NOT_FOUND when that text contains "not found" case-insensitively and INTERNAL_ERROR otherwise. -/
theorem processSingle_error_envelope (env : Env) (st : UserStore)
    (kvs : List (String × JSON)) (m : String) (idv : JSON) (e : PyExc)
    (hj : pyGet kvs "jsonrpc" = some (.str "2.0"))
    (hm : pyGet kvs "method" = some (.str m)) (hm0 : m ≠ "")
    (hid : pyGet kvs "id" = some idv)
    (hc : callMethod env st m ((pyGet kvs "params").getD (.arr [])) = .error e) :
    (processSingleRequest env st (.obj kvs)).1
      = some (errEnv idv
          (if containsNotFound e.msg then JSONRPCError.METHOD_NOT_FOUND
           else JSONRPCError.INTERNAL_ERROR) e.msg) := by
  have hk : hasKey kvs "id" = true := pyGet_some_hasKey kvs "id" idv hid
  simp only [processSingleRequest, hj, hm, hid, hk, Option.getD_some]
  rw [show pyEq (JSON.str "2.0") (JSON.str "2.0") = true from rfl]
  have hne : (m == "") = false := beq_eq_false_iff_ne.mpr hm0
  simp only [pyTruthy, isStr, hne, Bool.not_false, Bool.not_true, Bool.or_false,
    Bool.false_eq_true, if_false]
  rw [show asStr (JSON.str m) = m from rfl, hc]

/-- CLAIM C6, amended. For every call with id present, jsonrpc "2.0" and a NON-EMPTY string method not present in the method registry, dispatch returns a METHOD_NOT_FOUND (-32601) envelope carrying the request id. The amendment excludes the empty string: it is falsy in Python, so the method-field validation rejects it with INVALID_REQUEST (-32600) before the registry is consulted (see the counterexample). -/
theorem unknown_method_not_found (env : Env) (st : UserStore)
    (kvs : List (String × JSON)) (m : String) (idv : JSON)
    (hj : pyGet kvs "jsonrpc" = some (.str "2.0"))
    (hm : pyGet kvs "method" = some (.str m)) (hm0 : m ≠ "")
    (hmap : methodMap m = none)
    (hid : pyGet kvs "id" = some idv) :
    (processSingleRequest env st (.obj kvs)).1
      = some (errEnv idv JSONRPCError.METHOD_NOT_FOUND
          ("Method " ++ quo m ++ " not found")) := by
  have hcall : callMethod env st m ((pyGet kvs "params").getD (.arr []))
      = .error (.exc ("Method " ++ quo m ++ " not found")) := by
    unfold callMethod
    rw [hmap]
  have h := processSingle_error_envelope env st kvs m idv _ hj hm hm0 hid hcall
  rw [h, show PyExc.msg (.exc ("Method " ++ quo m ++ " not found"))
      = ("Method " ++ quo m ++ " not found") from rfl]
  rw [containsNotFound_suffix]
  rfl

/-- CLAIM C9. From any state satisfying the store invariant (every user key an integer below next_id): processing any request or batch preserves the invariant, never decreases next_id, and keeps every freed id freed — so an id removed by delete_user is never reassigned; moreover the id create_user is about to assign is not a current key (no user is ever overwritten), and a successful create_user appends exactly that fresh key and bumps the counter. -/
theorem user_store_invariant (env : Env) (st : UserStore) (hInv : StoreInv st) :
    (∀ d : JSON, StoreInv (processSingleRequest env st d).2
       ∧ st.next_id ≤ (processSingleRequest env st d).2.next_id
       ∧ ∀ k, Freed k st → Freed k (processSingleRequest env st d).2)
    ∧ (∀ items : List JSON, StoreInv (processBatch env st items).2
       ∧ st.next_id ≤ (processBatch env st items).2.next_id
       ∧ ∀ k, Freed k st → Freed k (processBatch env st items).2)
    ∧ hasUserKey st (.num st.next_id) = false
    ∧ (∀ name email age j st2,
        UserService.create_user env st name email age = .ok (j, st2) →
        st2.users.map Prod.fst = st.users.map Prod.fst ++ [.num st.next_id]
        ∧ st2.next_id = st.next_id + 1) := by
  refine ⟨?_, ?_, ?_, ?_⟩
  · intro d
    obtain ⟨h1, h2, h3⟩ := processSingle_rel env st d
    exact ⟨h2 hInv, h1, h3⟩
  · intro items
    obtain ⟨h1, h2, h3⟩ := processBatch_rel env items st
    exact ⟨h2 hInv, h1, h3⟩
  · rw [hasUserKey_keys, List.any_eq_false]
    intro x hx
    obtain ⟨m, hm, hlt⟩ := hInv x hx
    subst hm
    rw [pyEq_num_ne _ _ (by
      have hne : (m : Nat) ≠ st.next_id := by omega
      exact_mod_cast hne)]
    simp
  · intro name email age j st2 h
    unfold UserService.create_user at h
    split at h
    · simp at h
    · split at h
      · simp at h
      · simp only [Except.ok.injEq, Prod.mk.injEq] at h
        obtain ⟨-, hst⟩ := h
        rw [← hst]
        simp

/-- CLAIM C5, amended. For every call with id present, a valid envelope and a registered method, a failure raised during invocation — argument mismatch or business-rule violation — yields an error envelope carrying the failure text, with code INTERNAL_ERROR (-32603) unless that text contains "not found" case-insensitively, in which case the code is METHOD_NOT_FOUND (-32601). The amendment is forced by the message-sniffing on server.py line 156: get_user_by_id with an id not in the store raises "User with ID ... not found" and is therefore answered with -32601, not -32603 (see the counterexample); an argument mismatch such as divide by zero is answered with -32603. -/
theorem handler_failure_error_code (env : Env) (st : UserStore)
    (kvs : List (String × JSON)) (m : String) (idv : JSON) (e : PyExc)
    (hj : pyGet kvs "jsonrpc" = some (.str "2.0"))
    (hm : pyGet kvs "method" = some (.str m)) (hm0 : m ≠ "")
    (hid : pyGet kvs "id" = some idv)
    (hc : callMethod env st m ((pyGet kvs "params").getD (.arr [])) = .error e) :
    (processSingleRequest env st (.obj kvs)).1
      = some (errEnv idv
          (if containsNotFound e.msg then JSONRPCError.METHOD_NOT_FOUND
           else JSONRPCError.INTERNAL_ERROR) e.msg) :=
  processSingle_error_envelope env st kvs m idv e hj hm hm0 hid hc

/-- WITNESS for CLAIM C5: divide with b = 0 on the initial store — the wrapped ValueError text has no "not found", so the envelope code is INTERNAL_ERROR. -/
theorem handler_failure_error_code_witness :
    (pyGet [("jsonrpc", JSON.str "2.0"), ("method", JSON.str "divide"),
        ("params", JSON.obj [("a", JSON.num 1), ("b", JSON.num 0)]), ("id", JSON.num 9)]
        "jsonrpc" = some (JSON.str "2.0"))
    ∧ (processSingleRequest ⟨"T", "U"⟩ ⟨[], 1⟩
        (.obj [("jsonrpc", JSON.str "2.0"), ("method", JSON.str "divide"),
          ("params", JSON.obj [("a", JSON.num 1), ("b", JSON.num 0)]), ("id", JSON.num 9)])).1
      = some (errEnv (JSON.num 9)
          (if containsNotFound (PyExc.exc ("Invalid parameter values for method "
              ++ quo "divide" ++ ": Division by zero is not allowed")).msg
           then JSONRPCError.METHOD_NOT_FOUND else JSONRPCError.INTERNAL_ERROR)
          (PyExc.exc ("Invalid parameter values for method " ++ quo "divide"
            ++ ": Division by zero is not allowed")).msg) :=
  ⟨rfl, handler_failure_error_code ⟨"T", "U"⟩ ⟨[], 1⟩ _ "divide" (JSON.num 9) _
    rfl rfl (by decide) rfl rfl⟩

/-- COUNTEREXAMPLE to CLAIM C5 as stated: get_user_by_id with user_id 999 on the empty store — a business-rule violation inside a registered handler on a valid call — is answered with METHOD_NOT_FOUND (-32601), not INTERNAL_ERROR (-32603), because the ValueError text contains "not found". -/
theorem handler_failure_code_counterexample :
    (processSingleRequest ⟨"T", "U"⟩ ⟨[], 1⟩ (.obj [("jsonrpc", JSON.str "2.0"),
        ("method", JSON.str "get_user_by_id"),
        ("params", JSON.obj [("user_id", JSON.num 999)]), ("id", JSON.num 1)])).1
      = some (errEnv (JSON.num 1) JSONRPCError.METHOD_NOT_FOUND
          ("Invalid parameter values for method " ++ quo "get_user_by_id"
            ++ ": User with ID 999 not found"))
    ∧ JSONRPCError.METHOD_NOT_FOUND ≠ JSONRPCError.INTERNAL_ERROR :=
  ⟨rfl, by decide⟩

/-- COUNTEREXAMPLE to CLAIM C6 as stated: the empty string is a string method name not present in the registry, yet the request with method "" and id 4 is answered with INVALID_REQUEST (-32600), not METHOD_NOT_FOUND (-32601). -/
theorem empty_method_counterexample :
    methodMap "" = none
    ∧ (processSingleRequest ⟨"T", "U"⟩ ⟨[], 1⟩ (.obj [("jsonrpc", JSON.str "2.0"),
        ("method", JSON.str ""), ("id", JSON.num 4)])).1
      = some (errEnv (JSON.num 4) JSONRPCError.INVALID_REQUEST "Invalid Request")
    ∧ JSONRPCError.INVALID_REQUEST ≠ JSONRPCError.METHOD_NOT_FOUND :=
  ⟨rfl, rfl, by decide⟩

/-- WITNESS for CLAIM C6: the spec example — method "nope", id 4 — is answered with code -32601 and the id echoed. -/
theorem unknown_method_not_found_witness :
    methodMap "nope" = none
    ∧ (processSingleRequest ⟨"T", "U"⟩ ⟨[], 1⟩ (.obj [("jsonrpc", JSON.str "2.0"),
        ("method", JSON.str "nope"), ("id", JSON.num 4)])).1
      = some (errEnv (JSON.num 4) JSONRPCError.METHOD_NOT_FOUND
          ("Method " ++ quo "nope" ++ " not found")) :=
  ⟨rfl, unknown_method_not_found ⟨"T", "U"⟩ ⟨[], 1⟩ _ "nope" (JSON.num 4)
    rfl rfl (by decide) rfl rfl⟩

/-- WITNESS for CLAIM C2: a divide notification (no id) yields no response and the no-body sentinel. -/
theorem notification_no_response_witness :
    hasKey [("jsonrpc", JSON.str "2.0"), ("method", JSON.str "divide")] "id" = false
    ∧ ((processSingleRequest ⟨"T", "U"⟩ ⟨[], 1⟩
        (.obj [("jsonrpc", JSON.str "2.0"), ("method", JSON.str "divide")])).1 = none
      ∧ (handleRequest ⟨"T", "U"⟩ ⟨[], 1⟩
          (some (.obj [("jsonrpc", JSON.str "2.0"), ("method", JSON.str "divide")]))).1
        = DispatchOutput.noBody) :=
  ⟨rfl, notification_no_response ⟨"T", "U"⟩ ⟨[], 1⟩ _ rfl⟩

/-- WITNESS for CLAIM C3: a ping call with the null id is answered by an envelope echoing the null id. -/
theorem call_id_echoed_witness :
    (pyGet [("jsonrpc", JSON.str "2.0"), ("method", JSON.str "ping"), ("id", JSON.null)]
      "id" = some JSON.null)
    ∧ (∃ rkvs, (processSingleRequest ⟨"T", "U"⟩ ⟨[], 1⟩
        (.obj [("jsonrpc", JSON.str "2.0"), ("method", JSON.str "ping"),
          ("id", JSON.null)])).1 = some (.obj rkvs)
      ∧ pyGet rkvs "id" = some JSON.null) :=
  ⟨rfl, call_id_echoed ⟨"T", "U"⟩ ⟨[], 1⟩ _ JSON.null rfl ⟨"ping", rfl⟩ rfl⟩

/-- COUNTEREXAMPLE to CLAIM C7 as stated: the top-level body null is a valid JSON value that is not a mapping, yet dispatch answers it with a PARSE_ERROR (-32700) envelope, not INVALID_REQUEST (-32600) — request.get_json() returns None for the body null, so it takes the parse-error branch of server.py line 81 before the structural validation is reached. -/
theorem top_level_null_counterexample :
    (handleRequest ⟨"T", "U"⟩ ⟨[], 1⟩ (some JSON.null)).1
      = .single (errEnv .null JSONRPCError.PARSE_ERROR "Parse error")
    ∧ JSONRPCError.PARSE_ERROR ≠ JSONRPCError.INVALID_REQUEST :=
  ⟨rfl, by decide⟩

/-- WITNESS for CLAIM C7: the bare number 5 as a request yields the INVALID_REQUEST envelope with null id. -/
theorem non_mapping_invalid_request_witness :
    isObj (JSON.num 5) = false
    ∧ ((processSingleRequest ⟨"T", "U"⟩ ⟨[], 1⟩ (JSON.num 5)
        = (some (errEnv .null JSONRPCError.INVALID_REQUEST "Invalid Request"), ⟨[], 1⟩))
      ∧ (isArr (JSON.num 5) = false → JSON.num 5 ≠ JSON.null →
          (handleRequest ⟨"T", "U"⟩ ⟨[], 1⟩ (some (JSON.num 5))).1
            = .single (errEnv .null JSONRPCError.INVALID_REQUEST "Invalid Request"))) :=
  ⟨rfl, non_mapping_invalid_request ⟨"T", "U"⟩ ⟨[], 1⟩ (JSON.num 5) rfl⟩

/-- WITNESS for CLAIM C8: a ping call with the string "x" as params behaves exactly as the same call without a params key. -/
theorem scalar_params_as_absent_witness :
    (pyGet [("jsonrpc", JSON.str "2.0"), ("method", JSON.str "ping"),
        ("params", JSON.str "x"), ("id", JSON.num 1)] "params" = some (JSON.str "x"))
    ∧ processSingleRequest ⟨"T", "U"⟩ ⟨[], 1⟩
        (.obj [("jsonrpc", JSON.str "2.0"), ("method", JSON.str "ping"),
          ("params", JSON.str "x"), ("id", JSON.num 1)])
      = processSingleRequest ⟨"T", "U"⟩ ⟨[], 1⟩
          (.obj (removeKey [("jsonrpc", JSON.str "2.0"), ("method", JSON.str "ping"),
            ("params", JSON.str "x"), ("id", JSON.num 1)] "params")) :=
  ⟨rfl, scalar_params_as_absent ⟨"T", "U"⟩ ⟨[], 1⟩ _ (JSON.str "x") rfl rfl rfl⟩

/-- WITNESS for CLAIM C9: the initial empty store satisfies the invariant and the conclusions. -/
theorem user_store_invariant_witness :
    StoreInv ⟨[], 1⟩
    ∧ ((∀ d : JSON, StoreInv (processSingleRequest ⟨"T", "U"⟩ ⟨[], 1⟩ d).2
         ∧ (⟨[], 1⟩ : UserStore).next_id ≤ (processSingleRequest ⟨"T", "U"⟩ ⟨[], 1⟩ d).2.next_id
         ∧ ∀ k, Freed k ⟨[], 1⟩ → Freed k (processSingleRequest ⟨"T", "U"⟩ ⟨[], 1⟩ d).2)
      ∧ (∀ items : List JSON, StoreInv (processBatch ⟨"T", "U"⟩ ⟨[], 1⟩ items).2
         ∧ (⟨[], 1⟩ : UserStore).next_id ≤ (processBatch ⟨"T", "U"⟩ ⟨[], 1⟩ items).2.next_id
         ∧ ∀ k, Freed k ⟨[], 1⟩ → Freed k (processBatch ⟨"T", "U"⟩ ⟨[], 1⟩ items).2)
      ∧ hasUserKey ⟨[], 1⟩ (.num (⟨[], 1⟩ : UserStore).next_id) = false
      ∧ (∀ name email age j st2,
          UserService.create_user ⟨"T", "U"⟩ ⟨[], 1⟩ name email age = .ok (j, st2) →
          st2.users.map Prod.fst
            = (⟨[], 1⟩ : UserStore).users.map Prod.fst ++ [.num (⟨[], 1⟩ : UserStore).next_id]
          ∧ st2.next_id = (⟨[], 1⟩ : UserStore).next_id + 1)) :=
  ⟨fun k hk => by simp at hk,
    user_store_invariant ⟨"T", "U"⟩ ⟨[], 1⟩ (fun k hk => by simp at hk)⟩

/-- WITNESS for CLAIM C10: updating user 1 with a name change and an unknown key "color" succeeds, refreshes updated_at, applies name, ignores color, and leaves id, email, age and created_at unchanged. -/
theorem update_user_frame_witness :
    (lookupUser ⟨[(JSON.num 1,
        [("id", JSON.num 1), ("name", JSON.str "A"), ("email", JSON.str "a@x"),
         ("age", JSON.null), ("created_at", JSON.str "T0"), ("updated_at", JSON.str "T0")])], 2⟩
      (JSON.num 1)
      = some [("id", JSON.num 1), ("name", JSON.str "A"), ("email", JSON.str "a@x"),
         ("age", JSON.null), ("created_at", JSON.str "T0"), ("updated_at", JSON.str "T0")])
    ∧ (∃ u2, UserService.update_user ⟨"T1", "U1"⟩
        ⟨[(JSON.num 1,
          [("id", JSON.num 1), ("name", JSON.str "A"), ("email", JSON.str "a@x"),
           ("age", JSON.null), ("created_at", JSON.str "T0"), ("updated_at", JSON.str "T0")])], 2⟩
        (JSON.num 1) [("name", JSON.str "B"), ("color", JSON.str "red")]
        = .ok (.obj u2, ⟨usersSet
            [(JSON.num 1,
              [("id", JSON.num 1), ("name", JSON.str "A"), ("email", JSON.str "a@x"),
               ("age", JSON.null), ("created_at", JSON.str "T0"), ("updated_at", JSON.str "T0")])]
            (JSON.num 1) u2, 2⟩)
      ∧ (∀ f, pyGet u2 f =
          if f = "updated_at" then some (.str "T1")
          else if UserService.allowedKeys.contains f
              && hasKey [("name", JSON.str "B"), ("color", JSON.str "red")] f
            then pyGet [("name", JSON.str "B"), ("color", JSON.str "red")] f
          else pyGet [("id", JSON.num 1), ("name", JSON.str "A"), ("email", JSON.str "a@x"),
            ("age", JSON.null), ("created_at", JSON.str "T0"), ("updated_at", JSON.str "T0")] f)
      ∧ (usersSet
            [(JSON.num 1,
              [("id", JSON.num 1), ("name", JSON.str "A"), ("email", JSON.str "a@x"),
               ("age", JSON.null), ("created_at", JSON.str "T0"), ("updated_at", JSON.str "T0")])]
            (JSON.num 1) u2).map Prod.fst
          = [(JSON.num 1,
              [("id", JSON.num 1), ("name", JSON.str "A"), ("email", JSON.str "a@x"),
               ("age", JSON.null), ("created_at", JSON.str "T0"), ("updated_at", JSON.str "T0")])].map
              Prod.fst) :=
  ⟨rfl, update_user_frame ⟨"T1", "U1"⟩ _ (JSON.num 1) _ _ rfl⟩
